import Mathlib

/-!
Shallow embedding of the kubesync manager's job-status record keeping
(src/manager/server.go) and command-verb codec (src/internal/msg.go).

The store is modelled as a partial map from mirror ID to its persisted
job status; handlers are pure functions from (store, request data, clock
values) to a result carrying the final store, the ordered trace of
lock/store/outbound events the handler performed, the list of HTTP-style
response codes it wrote, and whether it panicked (nil-pointer
dereference) or ran to completion.
-/

/-- Modelled from the spec: the lifecycle states of api/v1beta1 (the
`v1beta1` package is not under src/; §4.2 of the spec lists
`{PreSyncing, Syncing, Success, Failed, Paused, Disabled}`). -/
inductive SyncStatus
  | preSyncing
  | syncing
  | success
  | failed
  | paused
  | disabled
deriving DecidableEq, Repr

/-- Modelled from the spec: the per-mirror job status record of
api/v1beta1 (not under src/); fields per §3 of the spec and their uses
in src/manager/server.go (`LastOnline`, `LastRegister`, `LastStarted`,
`LastUpdate`, `LastEnded`, `Size`, `Scheduled`, `Status`). Timestamps
are Unix seconds (Go int64), kept as `Int`. -/
structure JobStatus where
  status : SyncStatus
  lastOnline : Int
  lastRegister : Int
  lastStarted : Int
  lastUpdate : Int
  lastEnded : Int
  size : String
  scheduled : Int
deriving DecidableEq, Repr

/-- internal.MirrorStatus: mirror ID plus the embedded JobStatus
(src/internal/msg.go lines 12-16). -/
structure MirrorStatus where
  id : String
  jobStatus : JobStatus
deriving DecidableEq, Repr

/-- internal.MirrorSchedule (src/internal/msg.go lines 28-31). -/
structure MirrorSchedule where
  mirrorID : String
  nextSchedule : Int
deriving DecidableEq, Repr

/-- The keyed record store: mirror ID to persisted job status.  `none`
means the store get fails (record absent). -/
def Store : Type := String → Option JobStatus

/-- Events a handler performs, in program order: writer-lock
acquire/release on `rwmu`, store get/update keyed by mirror ID, and the
outbound `PostJSON` notification. -/
inductive Ev
  | lockW
  | unlockW
  | storeGet (id : String)
  | storeUpdate (id : String)
  | postJSON (id : String)
deriving DecidableEq, Repr

/-- Whether a handler ran to completion or hit a nil-pointer
dereference (Go panic). -/
inductive Outcome
  | panic
  | done
deriving DecidableEq, Repr

/-- Result of one handler invocation: outcome, final store, event
trace, HTTP response codes written (in order), and the JSON body
returned on the success path when the handler returns a record. -/
structure HResult where
  outcome : Outcome
  store : Store
  trace : List Ev
  resps : List Nat
  body : Option MirrorStatus

/-- Manager.GetJobRaw (src/manager/server.go lines 179-191): store get;
on failure it writes a 500 response and returns a nil job pointer
(here `none`). -/
def GetJobRaw (store : Store) (mirrorID : String) :
    Option JobStatus × List Ev × List Nat :=
  match store mirrorID with
  | some st => (some st, [Ev.storeGet mirrorID], [])
  | none => (none, [Ev.storeGet mirrorID], [500])

/-- Manager.GetJob (src/manager/server.go lines 193-197): builds
`MirrorStatus{ID, job.Status}` from GetJobRaw's result.  When GetJobRaw
failed, `job` is nil and `job.Status` dereferences it: a panic. -/
def GetJob (store : Store) (mirrorID : String) :
    Option MirrorStatus × List Ev × List Nat :=
  match GetJobRaw store mirrorID with
  | (some st, evs, rs) => (some ⟨mirrorID, st⟩, evs, rs)
  | (none, evs, rs) => (none, evs, rs)

/-- Manager.UpdateJobStatus (src/manager/server.go lines 199-208): get
the job by `w.ID`, overwrite its status with `w.JobStatus`, set
`LastOnline` to now (`t2`), and update the store.  Returns `none` when
the get failed (error propagated to the caller). -/
def UpdateJobStatus (store : Store) (t2 : Int) (w : MirrorStatus) :
    Option Store × List Ev × List Nat :=
  match GetJobRaw store w.id with
  | (none, evs, rs) => (none, evs, rs)
  | (some _, evs, rs) =>
    (some (fun k =>
        if k = w.id then some { w.jobStatus with lastOnline := t2 } else store k),
     evs ++ [Ev.storeUpdate w.id], rs)

/-- The status merge inside Manager.updateJob (src/manager/server.go
lines 373-399): incoming fields overwrite, except the edge-triggered
timestamps and the size-preservation rule. -/
def mergeStatus (cur inc : JobStatus) (curTime : Int) : JobStatus :=
  { inc with
    lastOnline := curTime,
    lastStarted :=
      if inc.status = SyncStatus.preSyncing ∧ cur.status ≠ SyncStatus.preSyncing
      then curTime else cur.lastStarted,
    lastUpdate := if inc.status = SyncStatus.success then curTime else cur.lastUpdate,
    lastEnded :=
      if inc.status = SyncStatus.success ∨ inc.status = SyncStatus.failed
      then curTime else cur.lastEnded,
    size :=
      if 0 < cur.size.length ∧ cur.size ≠ "unknown" then
        (if inc.size.length = 0 ∨ inc.size = "unknown" then cur.size else inc.size)
      else inc.size }

/-- Manager.updateJob handler (src/manager/server.go lines 364-422):
lock, GetJob by path ID, unlock; merge; lock, UpdateJobStatus keyed by
the body's ID, unlock.  `t1` is the `curTime` taken in the handler,
`t2` the `time.Now()` inside UpdateJobStatus.  A failed first get
panics inside GetJob before the Unlock runs. -/
def updateJob (store : Store) (mirrorID : String) (incoming : MirrorStatus)
    (t1 t2 : Int) : HResult :=
  match GetJob store mirrorID with
  | (none, evs, rs) => ⟨Outcome.panic, store, [Ev.lockW] ++ evs, rs, none⟩
  | (some cur, evs, rs) =>
    let merged : MirrorStatus := ⟨incoming.id, mergeStatus cur.jobStatus incoming.jobStatus t1⟩
    match UpdateJobStatus store t2 merged with
    | (none, evs2, rs2) =>
      ⟨Outcome.done, store,
       [Ev.lockW] ++ evs ++ [Ev.unlockW, Ev.lockW] ++ evs2 ++ [Ev.unlockW],
       rs ++ rs2 ++ [500], none⟩
    | (some store2, evs2, rs2) =>
      ⟨Outcome.done, store2,
       [Ev.lockW] ++ evs ++ [Ev.unlockW, Ev.lockW] ++ evs2 ++ [Ev.unlockW],
       rs ++ rs2 ++ [200], some merged⟩

/-- Manager.updateMirrorSize handler (src/manager/server.go lines
424-467): lock, GetJob by path ID, unlock; the size guard
`len(msg.Size) > 0 || msg.Size != "unknown"` (note: `||`, as written in
the source at line 448); lock, UpdateJobStatus, unlock. -/
def updateMirrorSize (store : Store) (mirrorID msgID msgSize : String)
    (t2 : Int) : HResult :=
  match GetJob store mirrorID with
  | (none, evs, rs) => ⟨Outcome.panic, store, [Ev.lockW] ++ evs, rs, none⟩
  | (some cur, evs, rs) =>
    let st : MirrorStatus :=
      if 0 < msgSize.length ∨ msgSize ≠ "unknown"
      then { cur with jobStatus := { cur.jobStatus with size := msgSize } }
      else cur
    match UpdateJobStatus store t2 st with
    | (none, evs2, rs2) =>
      ⟨Outcome.done, store,
       [Ev.lockW] ++ evs ++ [Ev.unlockW, Ev.lockW] ++ evs2 ++ [Ev.unlockW],
       rs ++ rs2 ++ [500], none⟩
    | (some store2, evs2, rs2) =>
      ⟨Outcome.done, store2,
       [Ev.lockW] ++ evs ++ [Ev.unlockW, Ev.lockW] ++ evs2 ++ [Ev.unlockW],
       rs ++ rs2 ++ [200], some st⟩

/-- Loop body of Manager.updateSchedules (src/manager/server.go lines
321-359).  An empty mirror ID writes a 400 response but (as in the
source, where no `continue` follows the returnErrJSON call) the item is
still processed.  A failed GetJob panics and aborts the batch; the
dead `continue`-on-error branch of the source is unreachable because
GetJob panics before returning a non-nil error.  A failed update writes
500 and returns (aborting the batch); a schedule equal to the stored
one skips the write. -/
def updateSchedulesLoop (store : Store) (t2 : Int) :
    List MirrorSchedule → Outcome × Store × List Ev × List Nat
  | [] => (Outcome.done, store, [], [200])
  | sch :: rest =>
    let pre : List Nat := if sch.mirrorID.length = 0 then [400] else []
    match GetJob store sch.mirrorID with
    | (none, evs, rs) => (Outcome.panic, store, [Ev.lockW] ++ evs, pre ++ rs)
    | (some cur, evs, rs) =>
      let evs0 := [Ev.lockW] ++ evs ++ [Ev.unlockW]
      if cur.jobStatus.scheduled = sch.nextSchedule then
        match updateSchedulesLoop store t2 rest with
        | (o, st, evs2, rs2) => (o, st, evs0 ++ evs2, pre ++ rs ++ rs2)
      else
        let cur2 : MirrorStatus :=
          { cur with jobStatus := { cur.jobStatus with scheduled := sch.nextSchedule } }
        match UpdateJobStatus store t2 cur2 with
        | (none, evs2, rs2) =>
          (Outcome.done, store, evs0 ++ [Ev.lockW] ++ evs2 ++ [Ev.unlockW],
           pre ++ rs ++ rs2 ++ [500])
        | (some store2, evs2, rs2) =>
          match updateSchedulesLoop store2 t2 rest with
          | (o, st, evs3, rs3) =>
            (o, st, evs0 ++ [Ev.lockW] ++ evs2 ++ [Ev.unlockW] ++ evs3,
             pre ++ rs ++ rs2 ++ rs3)

/-- Manager.updateSchedules handler (src/manager/server.go lines
317-362): process the batch sequentially; a final 200 empty response is
written only when the loop runs off the end. -/
def updateSchedules (store : Store) (t2 : Int)
    (schedules : List MirrorSchedule) : HResult :=
  match updateSchedulesLoop store t2 schedules with
  | (o, st, evs, rs) => ⟨o, st, evs, rs, none⟩

/-- Manager.registerMirror handler (src/manager/server.go lines
288-309): set LastOnline and LastRegister to now (`t1`), then
lock, UpdateJobStatus, unlock.  There is no create path: a missing
record makes UpdateJobStatus fail and the handler reports 500 (on top
of the 500 GetJobRaw already wrote). -/
def registerMirror (store : Store) (m : MirrorStatus) (t1 t2 : Int) : HResult :=
  let m1 : MirrorStatus :=
    { m with jobStatus := { m.jobStatus with lastOnline := t1, lastRegister := t1 } }
  match UpdateJobStatus store t2 m1 with
  | (none, evs, rs) =>
    ⟨Outcome.done, store, [Ev.lockW] ++ evs ++ [Ev.unlockW], rs ++ [500], none⟩
  | (some store2, evs, rs) =>
    ⟨Outcome.done, store2, [Ev.lockW] ++ evs ++ [Ev.unlockW], rs ++ [200], some m1⟩

/-- Manager.getJob handler (src/manager/server.go lines 243-261): lock,
GetJob, unlock, respond.  A failed get panics inside GetJob (before the
Unlock). -/
def getJob (store : Store) (mirrorID : String) : HResult :=
  match GetJob store mirrorID with
  | (none, evs, rs) => ⟨Outcome.panic, store, [Ev.lockW] ++ evs, rs, none⟩
  | (some w, evs, rs) =>
    ⟨Outcome.done, store, [Ev.lockW] ++ evs ++ [Ev.unlockW], rs ++ [200], some w⟩

/-- internal.CmdVerb (src/internal/msg.go lines 33-45).  The source
file lists start/stop/restart/ping; `disable` and `update` are
modelled from the spec (§4.4 lists verb ∈ {Start, Stop, Restart, Ping,
Disable, Update}; src/manager/server.go line 501 references
internal.CmdDisable, whose declaration is not under src/).  The Go zero
value of the uint8 enum is CmdStart. -/
inductive CmdVerb
  | start
  | stop
  | restart
  | ping
  | disable
  | update
deriving DecidableEq, Repr

/-- internal.ClientCmd (src/internal/msg.go lines 87-90). -/
structure ClientCmd where
  cmd : CmdVerb
  force : Bool
deriving DecidableEq, Repr

/-- internal.NewCmdVerbFromString (src/internal/msg.go lines 57-65): a
Go map lookup; a string outside the four known keys yields the map's
zero value, CmdStart. -/
def NewCmdVerbFromString (s : String) : CmdVerb :=
  if s = "start" then CmdVerb.start
  else if s = "stop" then CmdVerb.stop
  else if s = "restart" then CmdVerb.restart
  else if s = "ping" then CmdVerb.ping
  else CmdVerb.start

/-- internal.CmdVerb.UnmarshalJSON (src/internal/msg.go lines 75-83):
fails only when the JSON payload is not a string (`none` here);
otherwise decodes via NewCmdVerbFromString. -/
def cmdVerbUnmarshalJSON (j : Option String) : Except Unit CmdVerb :=
  match j with
  | none => Except.error ()
  | some s => Except.ok (NewCmdVerbFromString s)

/-- Manager.handleClientCmd (src/manager/server.go lines 484-525):
reject an empty path ID with 500; lock, GetJob, unlock (panic on a
missing record); Disable sets status Disabled, Stop sets Paused, other
verbs change nothing; when changed, lock, UpdateJobStatus, unlock (the
update's error is discarded in the source); then PostJSON to the
worker, whose outcome (`postOK`) decides only the response code, never
the store. -/
def handleClientCmd (store : Store) (mirrorID : String) (clientCmd : ClientCmd)
    (t2 : Int) (postOK : Bool) : HResult :=
  if mirrorID = "" then ⟨Outcome.done, store, [], [500], none⟩
  else
    match GetJob store mirrorID with
    | (none, evs, rs) => ⟨Outcome.panic, store, [Ev.lockW] ++ evs, rs, none⟩
    | (some cur, evs, rs) =>
      let evs0 := [Ev.lockW] ++ evs ++ [Ev.unlockW]
      let curStat : MirrorStatus :=
        match clientCmd.cmd with
        | CmdVerb.disable =>
          { cur with jobStatus := { cur.jobStatus with status := SyncStatus.disabled } }
        | CmdVerb.stop =>
          { cur with jobStatus := { cur.jobStatus with status := SyncStatus.paused } }
        | _ => cur
      let changed : Bool :=
        match clientCmd.cmd with
        | CmdVerb.disable => true
        | CmdVerb.stop => true
        | _ => false
      let next :=
        if changed then
          match UpdateJobStatus store t2 curStat with
          | (none, e, r) => (store, [Ev.lockW] ++ e ++ [Ev.unlockW], r)
          | (some s2, e, r) => (s2, [Ev.lockW] ++ e ++ [Ev.unlockW], r)
        else (store, ([] : List Ev), ([] : List Nat))
      match next with
      | (store2, evs1, rs1) =>
        ⟨Outcome.done, store2, evs0 ++ evs1 ++ [Ev.postJSON mirrorID],
         rs ++ rs1 ++ [if postOK then 200 else 500], none⟩

/-- Writer-lock depth check over a trace: every store access must
happen while the writer lock depth is positive. -/
def lockedOK : Nat → List Ev → Bool
  | _, [] => true
  | d, Ev.lockW :: t => lockedOK (d + 1) t
  | d, Ev.unlockW :: t => lockedOK (d - 1) t
  | d, Ev.storeGet _ :: t => decide (0 < d) && lockedOK d t
  | d, Ev.storeUpdate _ :: t => decide (0 < d) && lockedOK d t
  | d, Ev.postJSON _ :: t => lockedOK d t

/-- Whether a trace contains a store update. -/
def hasUpdate (l : List Ev) : Bool :=
  l.any fun e => match e with | Ev.storeUpdate _ => true | _ => false

/-- Whether a trace contains a writer-lock release followed (later) by
a store update. -/
def unlockThenUpdate : List Ev → Bool
  | [] => false
  | Ev.unlockW :: t => hasUpdate t || unlockThenUpdate t
  | _ :: t => unlockThenUpdate t

/-- Whether a trace contains a store get, then a writer-lock release,
then a store update — i.e. the gate is released somewhere inside a
read-modify-write sequence. -/
def gateBrokenRMW : List Ev → Bool
  | [] => false
  | Ev.storeGet _ :: t => unlockThenUpdate t || gateBrokenRMW t
  | _ :: t => gateBrokenRMW t

/-- Number of store updates (writes) in a trace. -/
def countUpd (l : List Ev) : Nat :=
  (l.filter fun e => match e with | Ev.storeUpdate _ => true | _ => false).length

/-- A record with a known size, used as a concrete fixture. -/
def jobKnown : JobStatus :=
  { status := SyncStatus.success, lastOnline := 3, lastRegister := 1,
    lastStarted := 2, lastUpdate := 3, lastEnded := 3,
    size := "100GB", scheduled := 4 }

/-- A one-record store holding `jobKnown` under mirror ID "m1". -/
def storeM1 : Store := fun id => if id = "m1" then some jobKnown else none

/-- The always-failing store (no record exists). -/
def emptyStore : Store := fun _ => none

/-- Claim C1: size monotonicity fails in the code.  The guard in
updateMirrorSize (src/manager/server.go line 448) reads
`len(msg.Size) > 0 || msg.Size != "unknown"`; with `||` the guard is
satisfied by every string, so an incoming size of "unknown" overwrites
the stored known size "100GB", contradicting the claim (and the
source's own comment "Only message with meaningful size updates the
mirror size", which the sibling updateJob implements with `&&`). -/
theorem C1_size_regression :
    jobKnown.size = "100GB" ∧
    (updateMirrorSize storeM1 "m1" "m1" "unknown" 7).store "m1" =
      some { jobKnown with size := "unknown", lastOnline := 7 } ∧
    (updateMirrorSize storeM1 "m1" "m1" "unknown" 7).outcome = Outcome.done := by
  refine ⟨rfl, by decide, rfl⟩

/-- Claim C4: timestamp edge detection of the status merge.
`lastStarted` is set to now exactly on a rising edge into PreSyncing,
`lastUpdate` exactly on Success, `lastEnded` exactly on Success or
Failed; in particular Failed updates `lastEnded` but carries
`lastUpdate` forward. -/
theorem C4_timestamp_edges (cur inc : JobStatus) (t : Int) :
    ((inc.status = SyncStatus.preSyncing ∧ cur.status ≠ SyncStatus.preSyncing) →
      (mergeStatus cur inc t).lastStarted = t) ∧
    (¬(inc.status = SyncStatus.preSyncing ∧ cur.status ≠ SyncStatus.preSyncing) →
      (mergeStatus cur inc t).lastStarted = cur.lastStarted) ∧
    (inc.status = SyncStatus.success → (mergeStatus cur inc t).lastUpdate = t) ∧
    (inc.status ≠ SyncStatus.success →
      (mergeStatus cur inc t).lastUpdate = cur.lastUpdate) ∧
    ((inc.status = SyncStatus.success ∨ inc.status = SyncStatus.failed) →
      (mergeStatus cur inc t).lastEnded = t) ∧
    (¬(inc.status = SyncStatus.success ∨ inc.status = SyncStatus.failed) →
      (mergeStatus cur inc t).lastEnded = cur.lastEnded) ∧
    (inc.status = SyncStatus.failed →
      (mergeStatus cur inc t).lastEnded = t ∧
      (mergeStatus cur inc t).lastUpdate = cur.lastUpdate) := by
  refine ⟨fun h => ?_, fun h => ?_, fun h => ?_, fun h => ?_, fun h => ?_,
    fun h => ?_, fun h => ?_⟩ <;>
    simp only [mergeStatus] <;> simp [h]

/-- Witness for C4 at concrete inputs: a report entering PreSyncing
from Syncing stamps lastStarted. -/
theorem C4_timestamp_edges_witness :
    (mergeStatus { jobKnown with status := SyncStatus.syncing }
      { jobKnown with status := SyncStatus.preSyncing } 42).lastStarted = 42 :=
  (C4_timestamp_edges { jobKnown with status := SyncStatus.syncing }
    { jobKnown with status := SyncStatus.preSyncing } 42).1 (by decide)

/-- Claim C10 counterexample: an unknown verb string is silently
decoded to the zero enum value CmdStart — the Go map lookup in
NewCmdVerbFromString returns the zero value for a missing key, with no
explicit rejection or defaulting. -/
theorem C10_unknown_verb_maps_to_start :
    NewCmdVerbFromString "bogus" = CmdVerb.start := by decide

/-- Claim C10 amended: NewCmdVerbFromString maps the four known strings
to their verbs and every other string silently to CmdStart (the zero
value); UnmarshalJSON fails only when the payload is not a JSON string
and otherwise never rejects an unknown verb string. -/
theorem C10_verb_decoding (s : String) :
    (s ≠ "start" → s ≠ "stop" → s ≠ "restart" → s ≠ "ping" →
      NewCmdVerbFromString s = CmdVerb.start) ∧
    NewCmdVerbFromString "start" = CmdVerb.start ∧
    NewCmdVerbFromString "stop" = CmdVerb.stop ∧
    NewCmdVerbFromString "restart" = CmdVerb.restart ∧
    NewCmdVerbFromString "ping" = CmdVerb.ping ∧
    cmdVerbUnmarshalJSON none = Except.error () ∧
    cmdVerbUnmarshalJSON (some s) = Except.ok (NewCmdVerbFromString s) := by
  refine ⟨fun h1 h2 h3 h4 => ?_, by decide, by decide, by decide, by decide, rfl, rfl⟩
  simp [NewCmdVerbFromString, h1, h2, h3, h4]

/-- Witness for C10 amended at a concrete unknown string. -/
theorem C10_verb_decoding_witness :
    NewCmdVerbFromString "disable" = CmdVerb.start :=
  (C10_verb_decoding "disable").1 (by decide) (by decide) (by decide) (by decide)

/-- A concrete MirrorStatus fixture with ID "m1". -/
def mirrorEx : MirrorStatus := ⟨"m1", jobKnown⟩

/-- Claim C3: when the store get fails, GetJobRaw returns a nil record
(`none`) and GetJob dereferences it — a panic, never a NotFound error
value — so getJob, updateJob, updateMirrorSize, updateSchedules (for a
batch containing that ID) and handleClientCmd all panic at that point
instead of propagating NotFound. -/
theorem C3_failed_get_panics (store : Store) (id : String) (inc : MirrorStatus)
    (mid msz : String) (t1 t2 : Int) (cc : ClientCmd) (postOK : Bool) (n : Int)
    (h : store id = none) :
    GetJobRaw store id = (none, [Ev.storeGet id], [500]) ∧
    GetJob store id = (none, [Ev.storeGet id], [500]) ∧
    (getJob store id).outcome = Outcome.panic ∧
    (updateJob store id inc t1 t2).outcome = Outcome.panic ∧
    (updateMirrorSize store id mid msz t2).outcome = Outcome.panic ∧
    (updateSchedules store t2 [⟨id, n⟩]).outcome = Outcome.panic ∧
    (id ≠ "" → (handleClientCmd store id cc t2 postOK).outcome = Outcome.panic) := by
  have hraw : GetJobRaw store id = (none, [Ev.storeGet id], [500]) := by
    simp [GetJobRaw, h]
  have hget : GetJob store id = (none, [Ev.storeGet id], [500]) := by
    simp [GetJob, hraw]
  refine ⟨hraw, hget, ?_, ?_, ?_, ?_, fun hne => ?_⟩
  · simp [getJob, hget]
  · simp [updateJob, hget]
  · simp [updateMirrorSize, hget]
  · simp [updateSchedules, updateSchedulesLoop, hget]
  · simp [handleClientCmd, hne, hget]

/-- Witness for C3: the empty store makes the get for "m1" fail and the
getJob handler panic. -/
theorem C3_failed_get_panics_witness :
    emptyStore "m1" = none ∧ (getJob emptyStore "m1").outcome = Outcome.panic :=
  ⟨rfl, (C3_failed_get_panics emptyStore "m1" mirrorEx "m1" "1G" 1 2
    ⟨CmdVerb.ping, false⟩ true 5 rfl).2.2.1⟩

/-- Claim C5 counterexample: registering a mirror that has no record
creates nothing.  registerMirror delegates to UpdateJobStatus, whose
get fails on the empty store; the handler reports 500 (twice: once from
GetJobRaw, once itself) and the store still has no record for "m1" —
there is no create path in registerMirror. -/
theorem C5_register_no_create :
    (registerMirror emptyStore mirrorEx 1 2).store "m1" = none ∧
    (registerMirror emptyStore mirrorEx 1 2).resps = [500, 500] ∧
    (registerMirror emptyStore mirrorEx 1 2).outcome = Outcome.done :=
  ⟨rfl, rfl, rfl⟩

/-- Claim C5 amended: registerMirror updates an existing record — it
sets lastRegister to the handler's now (`t1`) and lastOnline to
UpdateJobStatus's now (`t2`), overwrites the rest from the request, and
returns the request record stamped with `t1`; when no record exists it
fails with 500 and changes nothing (creation only happens in the
separate CreateJob, which registerMirror never calls). -/
theorem C5_register_updates_existing (store : Store) (m : MirrorStatus)
    (cur : JobStatus) (t1 t2 : Int) :
    (store m.id = some cur →
      (registerMirror store m t1 t2).store m.id =
        some { m.jobStatus with lastOnline := t2, lastRegister := t1 } ∧
      (registerMirror store m t1 t2).body =
        some ⟨m.id, { m.jobStatus with lastOnline := t1, lastRegister := t1 }⟩ ∧
      (registerMirror store m t1 t2).resps = [200] ∧
      (∀ k, k ≠ m.id → (registerMirror store m t1 t2).store k = store k)) ∧
    (store m.id = none →
      (registerMirror store m t1 t2).store = store ∧
      (registerMirror store m t1 t2).resps = [500, 500]) := by
  constructor
  · intro h
    refine ⟨?_, ?_, ?_, ?_⟩ <;>
      simp [registerMirror, UpdateJobStatus, GetJobRaw, h]
    intro k hk
    simp [hk]
  · intro h
    constructor <;> simp [registerMirror, UpdateJobStatus, GetJobRaw, h]

/-- Witness for C5 amended: a registration for the existing "m1" record
responds 200 and stores the request stamped with both clocks. -/
theorem C5_register_updates_existing_witness :
    (registerMirror storeM1 mirrorEx 8 9).resps = [200] ∧
    (registerMirror storeM1 mirrorEx 8 9).store "m1" =
      some { jobKnown with lastOnline := 9, lastRegister := 8 } := by
  have h := (C5_register_updates_existing storeM1 mirrorEx jobKnown 8 9).1 (by decide)
  exact ⟨h.2.2.1, h.1⟩

/-- Claim C2 counterexample: a successful updateJob run releases the
writer gate between its store get and its store update — the trace
contains a get, then an unlock, then an update — so the read-modify-
write sequence is not covered by one continuous gate acquisition. -/
theorem C2_gate_released_between :
    gateBrokenRMW (updateJob storeM1 "m1" mirrorEx 1 2).trace = true ∧
    (updateJob storeM1 "m1" mirrorEx 1 2).outcome = Outcome.done := by decide

/-- Claim C2 amended: every store get and store update is individually
performed while the writer gate is held, and registerMirror runs its
whole get-update under one gate acquisition; but updateJob releases the
gate between its read and its write (gateBrokenRMW), so the
read-modify-write sequence of updateJobStatus is not atomic and a
concurrent mutation can read between its read and write. -/
theorem C2_gate_per_access (store : Store) (cur c2 : JobStatus)
    (mirrorID : String) (inc : MirrorStatus) (t1 t2 : Int)
    (h : store mirrorID = some cur) (h2 : store inc.id = some c2) :
    (updateJob store mirrorID inc t1 t2).trace =
      [Ev.lockW, Ev.storeGet mirrorID, Ev.unlockW,
       Ev.lockW, Ev.storeGet inc.id, Ev.storeUpdate inc.id, Ev.unlockW] ∧
    lockedOK 0 (updateJob store mirrorID inc t1 t2).trace = true ∧
    gateBrokenRMW (updateJob store mirrorID inc t1 t2).trace = true ∧
    (∀ m' : MirrorStatus,
      gateBrokenRMW (registerMirror store m' t1 t2).trace = false ∧
      lockedOK 0 (registerMirror store m' t1 t2).trace = true) := by
  have ht : (updateJob store mirrorID inc t1 t2).trace =
      [Ev.lockW, Ev.storeGet mirrorID, Ev.unlockW,
       Ev.lockW, Ev.storeGet inc.id, Ev.storeUpdate inc.id, Ev.unlockW] := by
    simp [updateJob, GetJob, GetJobRaw, UpdateJobStatus, h, h2]
  refine ⟨ht, by rw [ht]; rfl, by rw [ht]; rfl, fun m' => ?_⟩
  rcases hs : store m'.id with _ | c <;>
    simp [registerMirror, UpdateJobStatus, GetJobRaw, hs, gateBrokenRMW,
      unlockThenUpdate, hasUpdate, lockedOK]

/-- Witness for C2 amended at concrete inputs. -/
theorem C2_gate_per_access_witness :
    lockedOK 0 (updateJob storeM1 "m1" mirrorEx 3 4).trace = true ∧
    gateBrokenRMW (updateJob storeM1 "m1" mirrorEx 3 4).trace = true := by
  have h := C2_gate_per_access storeM1 jobKnown jobKnown "m1" mirrorEx 3 4
    (by decide) (by decide)
  exact ⟨h.2.1, h.2.2.1⟩

/-- A record whose next schedule is 1, for the schedule fixtures. -/
def jobSched : JobStatus := { jobKnown with lastOnline := 5, scheduled := 1 }

/-- A one-record store holding `jobSched` under mirror ID "B". -/
def storeB : Store := fun id => if id = "B" then some jobSched else none

/-- A one-record store holding `jobSched` under mirror ID "m1". -/
def storeSched : Store := fun id => if id = "m1" then some jobSched else none

/-- Claim C6: the empty-ID validation in updateSchedules is not
followed by a `continue` (src/manager/server.go lines 323-328), so
after writing the 400 response the handler still attempts a store get
for the empty ID; that get fails and GetJob panics, aborting the whole
batch — the remaining item "B" is never processed and its record is
untouched.  This contradicts both the claim's "no store access
attempted" and its "remaining items still processed". -/
theorem C6_empty_id_still_accesses_store :
    (updateSchedules storeB 9 [⟨"", 2⟩, ⟨"B", 3⟩]).resps = [400, 500] ∧
    (updateSchedules storeB 9 [⟨"", 2⟩, ⟨"B", 3⟩]).trace =
      [Ev.lockW, Ev.storeGet ""] ∧
    (updateSchedules storeB 9 [⟨"", 2⟩, ⟨"B", 3⟩]).outcome = Outcome.panic ∧
    (updateSchedules storeB 9 [⟨"", 2⟩, ⟨"B", 3⟩]).store "B" = some jobSched := by
  refine ⟨by decide, by decide, rfl, by decide⟩

/-- Claim C7 counterexample: the schedule write-back does not leave
lastOnline unchanged.  With stored lastOnline 5 and clock 10, updating
the schedule from 1 to 2 stores lastOnline 10 (UpdateJobStatus stamps
LastOnline on every write, src/manager/server.go line 205). -/
theorem C7_lastOnline_not_preserved :
    ¬ (((updateSchedules storeSched 10 [⟨"m1", 2⟩]).store "m1").map
        JobStatus.lastOnline = some jobSched.lastOnline) := by decide

/-- Claim C7 amended: for a batch item whose new schedule differs from
the stored one, the write back sets scheduledAt to the new value and
lastOnline to now, and leaves every other field of the record (and
every other record) unchanged. -/
theorem C7_schedule_write_frame (store : Store) (cur : JobStatus) (id : String)
    (next t2 : Int) (h : store id = some cur) (hne : cur.scheduled ≠ next) :
    (updateSchedules store t2 [⟨id, next⟩]).store id =
      some { cur with scheduled := next, lastOnline := t2 } ∧
    (∀ k, k ≠ id → (updateSchedules store t2 [⟨id, next⟩]).store k = store k) := by
  constructor
  · simp [updateSchedules, updateSchedulesLoop, GetJob, GetJobRaw,
      UpdateJobStatus, h, hne]
  · intro k hk
    simp [updateSchedules, updateSchedulesLoop, GetJob, GetJobRaw,
      UpdateJobStatus, h, hne, hk]

/-- Witness for C7 amended at concrete inputs. -/
theorem C7_schedule_write_frame_witness :
    (updateSchedules storeSched 10 [⟨"m1", 2⟩]).store "m1" =
      some { jobSched with scheduled := 2, lastOnline := 10 } :=
  (C7_schedule_write_frame storeSched jobSched "m1" 2 10 (by decide) (by decide)).1

/-- Claim C8: schedule-update idempotence.  A submitted schedule equal
to the stored one performs no write and leaves the store untouched;
starting from a differing schedule, the first call performs exactly one
write and the second call with the same pair performs zero writes and
returns the identical store. -/
theorem C8_schedule_idempotent (store : Store) (cur : JobStatus) (id : String)
    (next t t' : Int) (h : store id = some cur) :
    (cur.scheduled = next →
      (updateSchedules store t [⟨id, next⟩]).store = store ∧
      countUpd (updateSchedules store t [⟨id, next⟩]).trace = 0) ∧
    (cur.scheduled ≠ next →
      countUpd (updateSchedules store t [⟨id, next⟩]).trace = 1 ∧
      countUpd (updateSchedules ((updateSchedules store t [⟨id, next⟩]).store)
        t' [⟨id, next⟩]).trace = 0 ∧
      (updateSchedules ((updateSchedules store t [⟨id, next⟩]).store)
        t' [⟨id, next⟩]).store = (updateSchedules store t [⟨id, next⟩]).store) := by
  constructor
  · intro he
    constructor <;>
      simp [updateSchedules, updateSchedulesLoop, GetJob, GetJobRaw, h, he, countUpd]
  · intro hne
    have hs1 : (updateSchedules store t [⟨id, next⟩]).store = (fun k =>
        if k = id then some { cur with scheduled := next, lastOnline := t }
        else store k) := by
      simp [updateSchedules, updateSchedulesLoop, GetJob, GetJobRaw,
        UpdateJobStatus, h, hne]
    have ht1 : (updateSchedules store t [⟨id, next⟩]).trace =
        [Ev.lockW, Ev.storeGet id, Ev.unlockW, Ev.lockW, Ev.storeGet id,
         Ev.storeUpdate id, Ev.unlockW] := by
      simp [updateSchedules, updateSchedulesLoop, GetJob, GetJobRaw,
        UpdateJobStatus, h, hne]
    have h1 : (updateSchedules store t [⟨id, next⟩]).store id =
        some { cur with scheduled := next, lastOnline := t } := by
      rw [hs1]
      simp
    have key : ∀ st2 : Store,
        st2 id = some { cur with scheduled := next, lastOnline := t } →
        (updateSchedules st2 t' [⟨id, next⟩]).store = st2 ∧
        (updateSchedules st2 t' [⟨id, next⟩]).trace =
          [Ev.lockW, Ev.storeGet id, Ev.unlockW] := by
      intro st2 h2
      constructor <;>
        simp [updateSchedules, updateSchedulesLoop, GetJob, GetJobRaw, h2]
    refine ⟨by rw [ht1]; rfl, ?_, (key _ h1).1⟩
    rw [(key _ h1).2]
    rfl

/-- Witness for C8 at concrete inputs: one write then zero writes. -/
theorem C8_schedule_idempotent_witness :
    countUpd (updateSchedules storeSched 10 [⟨"m1", 2⟩]).trace = 1 ∧
    countUpd (updateSchedules ((updateSchedules storeSched 10 [⟨"m1", 2⟩]).store)
      11 [⟨"m1", 2⟩]).trace = 0 := by
  have h := (C8_schedule_idempotent storeSched jobSched "m1" 2 10 11
    (by decide)).2 (by decide)
  exact ⟨h.1, h.2.1⟩

/-- Claim C9: command-relay local effect.  Stop stores Paused and
Disable stores Disabled (each also stamping lastOnline, per
UpdateJobStatus); all other verbs leave the store untouched; the store
update event precedes the outbound PostJSON in the trace; and the final
store is the same whether the outbound notification succeeds or fails
(no rollback). -/
theorem C9_cmd_local_effect (store : Store) (cur : JobStatus) (id : String)
    (verb : CmdVerb) (force : Bool) (t2 : Int) (postOK : Bool)
    (hne : id ≠ "") (h : store id = some cur) :
    (verb = CmdVerb.stop →
      (handleClientCmd store id ⟨verb, force⟩ t2 postOK).store id =
        some { cur with status := SyncStatus.paused, lastOnline := t2 } ∧
      (handleClientCmd store id ⟨verb, force⟩ t2 postOK).trace =
        [Ev.lockW, Ev.storeGet id, Ev.unlockW, Ev.lockW, Ev.storeGet id,
         Ev.storeUpdate id, Ev.unlockW, Ev.postJSON id]) ∧
    (verb = CmdVerb.disable →
      (handleClientCmd store id ⟨verb, force⟩ t2 postOK).store id =
        some { cur with status := SyncStatus.disabled, lastOnline := t2 } ∧
      (handleClientCmd store id ⟨verb, force⟩ t2 postOK).trace =
        [Ev.lockW, Ev.storeGet id, Ev.unlockW, Ev.lockW, Ev.storeGet id,
         Ev.storeUpdate id, Ev.unlockW, Ev.postJSON id]) ∧
    (verb ≠ CmdVerb.stop → verb ≠ CmdVerb.disable →
      (handleClientCmd store id ⟨verb, force⟩ t2 postOK).store = store ∧
      (handleClientCmd store id ⟨verb, force⟩ t2 postOK).trace =
        [Ev.lockW, Ev.storeGet id, Ev.unlockW, Ev.postJSON id]) ∧
    (handleClientCmd store id ⟨verb, force⟩ t2 true).store =
      (handleClientCmd store id ⟨verb, force⟩ t2 false).store := by
  refine ⟨fun hv => ?_, fun hv => ?_, fun h1 h2 => ?_, ?_⟩
  · subst hv
    constructor <;>
      simp [handleClientCmd, hne, GetJob, GetJobRaw, UpdateJobStatus, h]
  · subst hv
    constructor <;>
      simp [handleClientCmd, hne, GetJob, GetJobRaw, UpdateJobStatus, h]
  · cases verb
    case stop => exact absurd rfl h1
    case disable => exact absurd rfl h2
    all_goals constructor <;>
      simp [handleClientCmd, hne, GetJob, GetJobRaw, UpdateJobStatus, h]
  · cases verb <;>
      simp [handleClientCmd, hne, GetJob, GetJobRaw, UpdateJobStatus, h]

/-- Witness for C9 at concrete inputs: Stop stores Paused. -/
theorem C9_cmd_local_effect_witness :
    (handleClientCmd storeM1 "m1" ⟨CmdVerb.stop, false⟩ 7 true).store "m1" =
      some { jobKnown with status := SyncStatus.paused, lastOnline := 7 } :=
  ((C9_cmd_local_effect storeM1 jobKnown "m1" CmdVerb.stop false 7 true
    (by decide) (by decide)).1 rfl).1
